import Mathlib

/-!
# Aseprite: `app::cmd::SetPixelFormat` and `app::ColorPopup`

A shallow embedding of

* `src/app/cmd/set_pixel_format.h`  (the `SetPixelFormat` command), and
* `src/app/ui/color_popup.cpp`      (the colour picker popup),

followed by the properties established about them.

Conventions of the embedding:

* C++ member functions become functions on an explicit state record; a
  member function that may dereference a null pointer or index a child list
  out of range returns `Option`, with `none` standing for the undefined
  behaviour.
* Types and functions that the two files use but do not define
  (`app::Color`, `doc::Palette`) are parameters, collected in the record
  `Deps`.  A widget of the `ui` toolkit is reduced to the state the popup
  gives it (a selection, a colour, a visibility flag); a call into a widget
  is taken not to call back into the popup.
* `size_t` is a natural number below `SIZE_MOD`, additions are reduced
  modulo `SIZE_MOD`.
-/

namespace app

/-! ## Collaborators of `color_popup.cpp` -/

/-- The enumeration `app::Color::Type`, with the five enumerators named in
`ColorPopup::selectColorType`. -/
inductive ColorType where
  | MaskType
  | RgbType
  | HsvType
  | GrayType
  | IndexType
  deriving DecidableEq, Repr

/-- The enumeration `ColorPopup::SetColorOptions`. -/
inductive SetColorOptions where
  | ChangeType
  | DoNotChangeType
  deriving DecidableEq, Repr

/-- The anonymous enumeration at the top of `color_popup.cpp`: the positions
of the five items of the colour type button set. -/
def INDEX_MODE : Nat := 0

/-- Position of the "RGB" item. -/
def RGB_MODE : Nat := 1

/-- Position of the "HSB" item. -/
def HSB_MODE : Nat := 2

/-- Position of the "Gray" item. -/
def GRAY_MODE : Nat := 3

/-- Position of the "Mask" item. -/
def MASK_MODE : Nat := 4

/-- The functions of `app::Color` and `doc::Palette` (and the `rgba_get*`
helpers of `doc`) that `color_popup.cpp` calls.  Their definitions are not
part of the two files, so every result below holds for all of them.  `Dbl`
stands for `double`, `color_t` is a natural number. -/
structure Deps (Color Palette Dbl : Type) where
  fromMask : Color
  fromRgb : Int → Int → Int → Int → Color
  fromHsv : Dbl → Dbl → Dbl → Int → Color
  fromGray : Int → Int → Color
  fromIndex : Int → Color
  getType : Color → ColorType
  getRed : Color → Int
  getGreen : Color → Int
  getBlue : Color → Int
  getAlpha : Color → Int
  getGray : Color → Int
  getIndex : Color → Int
  getHue : Color → Dbl
  getSaturation : Color → Dbl
  getValue : Color → Dbl
  size : Palette → Nat
  getEntry : Palette → Nat → Nat
  findExactMatch : Palette → Int → Int → Int → Int → Int → Int
  findBestfit : Palette → Int → Int → Int → Int → Int → Int
  rgba_getr : Nat → Int
  rgba_getg : Nat → Int
  rgba_getb : Nat → Int
  rgba_geta : Nat → Int

/-- A `ColorSliders` widget as the popup sees it: the colour last passed to
its `setColor` (none before the first call) and its visibility flag. -/
structure ColorSliders (Color : Type) where
  color : Option Color
  visible : Bool
  deriving DecidableEq, Repr

/-! ## `ColorPopup::SimpleColors` -/

/-- The class `ColorPopup::SimpleColors::Item`: a button holding a colour;
`selected` is the selection flag of the button. -/
structure SimpleColorsItem (Color : Type) where
  m_color : Color
  selected : Bool
  deriving DecidableEq, Repr

/-- The class `ColorPopup::SimpleColors`: a horizontal box whose children
are the items. -/
structure SimpleColors (Color : Type) where
  children : List (SimpleColorsItem Color)
  deriving DecidableEq, Repr

/-- The loop of the `SimpleColors` constructor, for `i` from `i` to
`i + k - 1`: one item per palette entry, appended to the children. -/
def SimpleColors.addItems {Color Palette Dbl : Type} (d : Deps Color Palette Dbl)
    (pal : Palette) :
    Nat → Nat → List (SimpleColorsItem Color) → List (SimpleColorsItem Color)
  | _, 0, cs => cs
  | i, k + 1, cs =>
    let c := d.getEntry pal i
    let color := d.fromRgb (d.rgba_getr c) (d.rgba_getg c) (d.rgba_getb c) (d.rgba_geta c)
    SimpleColors.addItems d pal (i + 1) k (cs ++ [{ m_color := color, selected := false }])

/-- The constructor `SimpleColors::SimpleColors`, run with `g_simplePal`
pointing to `pal`. -/
def SimpleColors.new {Color Palette Dbl : Type} (d : Deps Color Palette Dbl)
    (pal : Palette) : SimpleColors Color :=
  { children := SimpleColors.addItems d pal 0 (d.size pal) [] }

/-- The loop shared by `selectColor` and `deselect`, for `i` from `i` to
`i + k - 1`: `children()[i]->setSelected(sel i)`.  Indexing past the end of
the children is undefined behaviour (`none`). -/
def SimpleColors.setSelectedLoop {Color : Type} (sel : Nat → Bool) :
    Nat → Nat → List (SimpleColorsItem Color) → Option (List (SimpleColorsItem Color))
  | _, 0, cs => some cs
  | i, k + 1, cs =>
    match cs.get? i with
    | none => none
    | some item =>
      SimpleColors.setSelectedLoop sel (i + 1) k (cs.set i { item with selected := sel i })

/-- The member `SimpleColors::selectColor(index)`; `n` is
`g_simplePal->size()`. -/
def SimpleColors.selectColor {Color : Type} (n : Nat) (index : Int)
    (sc : SimpleColors Color) : Option (SimpleColors Color) :=
  (SimpleColors.setSelectedLoop (fun i => decide ((i : Int) = index)) 0 n sc.children).map
    (fun cs => { children := cs })

/-- The member `SimpleColors::deselect()`; `n` is `g_simplePal->size()`. -/
def SimpleColors.deselect {Color : Type} (n : Nat)
    (sc : SimpleColors Color) : Option (SimpleColors Color) :=
  (SimpleColors.setSelectedLoop (fun _ => false) 0 n sc.children).map
    (fun cs => { children := cs })

/-! ## `ColorPopup` -/

/-- One emission of the signal `ColorPopup::ColorChange`: the argument
passed to the slots, and the value `getColor()` has at that moment (what a
connected slot reads from the popup). -/
structure ColorChangeCall (Color : Type) where
  color : Color
  seen : Color
  deriving DecidableEq, Repr

/-- The state of a `ColorPopup`.

* `m_colorPalette` is the selection of the palette view: `deselect()` clears
  it, `selectColor(i)` sets it to `i`.
* `m_colorType` is the selected item of the button set, `none` when no item
  is selected (`selectedItem()` is then `-1`).
* `m_hexColorEntry` lists the colours written to the hex entry by its
  `setColor`, most recent first; text typed by the user is not a write.
* `colorPaletteContainerVisible` and `maskLabelVisible` are the visibility
  flags of `m_colorPaletteContainer` and `m_maskLabel`.
* `ColorChange` lists the emissions of the signal, oldest first.

Layout, painting, size hints, tooltips and the keyboard focus belong to the
toolkit and are not part of the state. -/
structure ColorPopup (Color : Type) where
  m_color : Color
  m_colorPalette : Option Int
  m_simpleColors : Option (SimpleColors Color)
  m_colorType : Option Nat
  m_hexColorEntry : List Color
  m_rgbSliders : ColorSliders Color
  m_hsvSliders : ColorSliders Color
  m_graySlider : ColorSliders Color
  colorPaletteContainerVisible : Bool
  maskLabelVisible : Bool
  m_canPin : Bool
  m_disableHexUpdate : Bool
  ColorChange : List (ColorChangeCall Color)
  deriving DecidableEq, Repr

namespace ColorPopup

variable {Color Palette Dbl : Type}

/-- The position `selectColorType` passes to `m_colorType.setSelectedItem`
for a colour type (the `switch` of `selectColorType`). -/
def modeOfType : ColorType → Nat
  | .IndexType => INDEX_MODE
  | .RgbType => RGB_MODE
  | .HsvType => HSB_MODE
  | .GrayType => GRAY_MODE
  | .MaskType => MASK_MODE

/-- The member `ColorPopup::selectColorType(type)`.  Its last statements
(taking the keyboard focus from a widget that is now hidden, `layout()` and
`invalidate()`) act on the toolkit and the screen only. -/
def selectColorType (type : ColorType) (p : ColorPopup Color) : ColorPopup Color :=
  let p := { p with colorPaletteContainerVisible := decide (type = ColorType.IndexType) }
  let p :=
    { p with m_rgbSliders := { p.m_rgbSliders with visible := decide (type = ColorType.RgbType) } }
  let p :=
    { p with m_hsvSliders := { p.m_hsvSliders with visible := decide (type = ColorType.HsvType) } }
  let p :=
    { p with m_graySlider := { p.m_graySlider with visible := decide (type = ColorType.GrayType) } }
  let p := { p with maskLabelVisible := decide (type = ColorType.MaskType) }
  { p with m_colorType := some (modeOfType type) }

/-- The constructor `ColorPopup::ColorPopup(canPin, showSimpleColors)`.

`g_simplePal` is the value of the global before the call; the new value of
the global is the first component of the result.  `findFirst` is the result
of `rf.findFirst()` for `palettes/tags.gpl` and `load_palette` the result of
`load_palette(rf.filename())` (`none` for a null pointer), were they called. -/
def new (d : Deps Color Palette Dbl) (canPin showSimpleColors findFirst : Bool)
    (load_palette : Option Palette) (g_simplePal : Option Palette) :
    Option Palette × ColorPopup Color :=
  let g : Option Palette :=
    if showSimpleColors then
      match g_simplePal with
      | none => if findFirst then load_palette else none
      | some pal => some pal
    else g_simplePal
  let simpleColors : Option (SimpleColors Color) :=
    if showSimpleColors then
      match g with
      | some pal => some (SimpleColors.new d pal)
      | none => none
    else none
  let p : ColorPopup Color :=
    { m_color := d.fromMask
      m_colorPalette := none
      m_simpleColors := simpleColors
      m_colorType := none
      m_hexColorEntry := []
      m_rgbSliders := { color := none, visible := true }
      m_hsvSliders := { color := none, visible := true }
      m_graySlider := { color := none, visible := true }
      colorPaletteContainerVisible := true
      maskLabelVisible := true
      m_canPin := canPin
      m_disableHexUpdate := false
      ColorChange := [] }
  -- Set RGB just for the sizeHint(), and then deselect the color type
  let p := p.selectColorType .RgbType
  (g, { p with m_colorType := none })

/-- The member `ColorPopup::setColor(color, options)`, run with the global
`g_simplePal` as given.  The result is `none` when the call dereferences a
null `g_simplePal` or indexes the children of the strip out of range. -/
def setColor (d : Deps Color Palette Dbl) (g_simplePal : Option Palette)
    (color : Color) (options : SetColorOptions) (p : ColorPopup Color) :
    Option (ColorPopup Color) := do
  let p := { p with m_color := color }
  let p ←
    match p.m_simpleColors with
    | some sc =>
      match g_simplePal with
      | none => none
      | some pal =>
        let r := d.getRed color
        let g := d.getGreen color
        let b := d.getBlue color
        let a := d.getAlpha color
        let i := d.findExactMatch pal r g b a (-1)
        let sc ← if i ≥ 0 then sc.selectColor (d.size pal) i else sc.deselect (d.size pal)
        some { p with m_simpleColors := some sc }
    | none => some p
  let p :=
    if d.getType color = .IndexType then { p with m_colorPalette := some (d.getIndex color) }
    else p
  let p := { p with m_rgbSliders := { p.m_rgbSliders with color := some p.m_color } }
  let p := { p with m_hsvSliders := { p.m_hsvSliders with color := some p.m_color } }
  let p := { p with m_graySlider := { p.m_graySlider with color := some p.m_color } }
  let p :=
    if !p.m_disableHexUpdate then { p with m_hexColorEntry := p.m_color :: p.m_hexColorEntry }
    else p
  let p := if options = .ChangeType then p.selectColorType (d.getType p.m_color) else p
  some p

/-- The member `ColorPopup::getColor()`. -/
def getColor (p : ColorPopup Color) : Color :=
  p.m_color

/-- The call `ColorChange(color)`: one emission of the signal.  Slots
connected to the signal live outside the two files and are not run. -/
def fireColorChange (color : Color) (p : ColorPopup Color) : ColorPopup Color :=
  { p with ColorChange := p.ColorChange ++ [{ color := color, seen := p.getColor }] }

/-- The member `ColorPopup::setColorWithSignal(color)`. -/
def setColorWithSignal (d : Deps Color Palette Dbl) (g_simplePal : Option Palette)
    (color : Color) (p : ColorPopup Color) : Option (ColorPopup Color) := do
  let p ← p.setColor d g_simplePal color .ChangeType
  -- Fire ColorChange signal
  some (p.fireColorChange color)

/-- The member `ColorPopup::findBestfitIndex(color)`; `currentPalette` is
the result of `get_current_palette()`. -/
def findBestfitIndex (d : Deps Color Palette Dbl) (currentPalette : Palette)
    (color : Color) (p : ColorPopup Color) : ColorPopup Color :=
  let r := d.getRed color
  let g := d.getGreen color
  let b := d.getBlue color
  let a := d.getAlpha color
  let i := d.findBestfit currentPalette r g b a 0
  if i ≥ 0 then { p with m_colorPalette := some i } else p

/-- The member `ColorPopup::onPaletteViewIndexChange(index, buttons)`. -/
def onPaletteViewIndexChange (d : Deps Color Palette Dbl) (g_simplePal : Option Palette)
    (index : Int) (p : ColorPopup Color) : Option (ColorPopup Color) :=
  p.setColorWithSignal d g_simplePal (d.fromIndex index)

/-- The member `ColorPopup::onColorSlidersChange(ev)`; `color` is
`ev.color()`. -/
def onColorSlidersChange (d : Deps Color Palette Dbl) (g_simplePal : Option Palette)
    (currentPalette : Palette) (color : Color) (p : ColorPopup Color) :
    Option (ColorPopup Color) := do
  let p ← p.setColorWithSignal d g_simplePal color
  some (p.findBestfitIndex d currentPalette color)

/-- The member `ColorPopup::onColorHexEntryChange(color)`. -/
def onColorHexEntryChange (d : Deps Color Palette Dbl) (g_simplePal : Option Palette)
    (currentPalette : Palette) (color : Color) (p : ColorPopup Color) :
    Option (ColorPopup Color) := do
  -- Disable updating the hex entry so we don't override what the user
  -- is writting in the text field.
  let p := { p with m_disableHexUpdate := true }
  let p ← p.setColorWithSignal d g_simplePal color
  let p := p.findBestfitIndex d currentPalette color
  some { p with m_disableHexUpdate := false }

/-- The member `ColorPopup::onSimpleColorClick()`. -/
def onSimpleColorClick (d : Deps Color Palette Dbl) (g_simplePal : Option Palette)
    (p : ColorPopup Color) : Option (ColorPopup Color) :=
  let p := { p with m_colorType := none }
  match g_simplePal with
  | none => some p
  | some pal =>
    let color := p.getColor
    let r := d.getRed color
    let g := d.getGreen color
    let b := d.getBlue color
    let a := d.getAlpha color
    let i := d.findBestfit pal r g b a 0
    let color :=
      if i ≥ 0 then
        let c := d.getEntry pal i.toNat
        d.fromRgb (d.rgba_getr c) (d.rgba_getg c) (d.rgba_getb c) (d.rgba_geta c)
      else color
    p.setColorWithSignal d g_simplePal color

/-- The member `ColorPopup::onColorTypeClick()`. -/
def onColorTypeClick (d : Deps Color Palette Dbl) (g_simplePal : Option Palette)
    (p : ColorPopup Color) : Option (ColorPopup Color) := do
  let p ←
    match p.m_simpleColors with
    | some sc =>
      match g_simplePal with
      | none => none
      | some pal => do
        let sc ← sc.deselect (d.size pal)
        some { p with m_simpleColors := some sc }
    | none => some p
  let newColor := p.getColor
  let newColor :=
    if p.m_colorType = some INDEX_MODE then d.fromIndex (d.getIndex newColor)
    else if p.m_colorType = some RGB_MODE then
      d.fromRgb (d.getRed newColor) (d.getGreen newColor) (d.getBlue newColor)
        (d.getAlpha newColor)
    else if p.m_colorType = some HSB_MODE then
      d.fromHsv (d.getHue newColor) (d.getSaturation newColor) (d.getValue newColor)
        (d.getAlpha newColor)
    else if p.m_colorType = some GRAY_MODE then
      d.fromGray (d.getGray newColor) (d.getAlpha newColor)
    else if p.m_colorType = some MASK_MODE then d.fromMask
    else newColor
  p.setColorWithSignal d g_simplePal newColor

/-- The member `ColorPopup::onPaletteChange()`. -/
def onPaletteChange (d : Deps Color Palette Dbl) (g_simplePal : Option Palette)
    (p : ColorPopup Color) : Option (ColorPopup Color) :=
  p.setColor d g_simplePal p.getColor .DoNotChangeType

/-- The member `SimpleColors::Item::onClick` of the item at position `i` of
the strip of the popup; a click needs the item to exist. -/
def onItemClick (d : Deps Color Palette Dbl) (g_simplePal : Option Palette)
    (i : Nat) (p : ColorPopup Color) : Option (ColorPopup Color) :=
  match p.m_simpleColors with
  | some sc =>
    match sc.children.get? i with
    | some item => p.setColorWithSignal d g_simplePal item.m_color
    | none => some p
  | none => some p

end ColorPopup

/-! ## Predicates on popups -/

namespace ColorPopup

variable {Color Palette Dbl : Type}

/-- The strip of simple colours is consistent with the global: a popup
that has a strip finds `g_simplePal` non-null, with as many entries as the
strip has children. -/
def StripOk (d : Deps Color Palette Dbl) (g_simplePal : Option Palette)
    (p : ColorPopup Color) : Prop :=
  ∀ sc, p.m_simpleColors = some sc →
    ∃ pal, g_simplePal = some pal ∧ sc.children.length = d.size pal

/-- The colour type is set up for `type`: the selected item of `m_colorType`
is the one of `type`, and of the five panels exactly the one of `type` is
visible. -/
def TypeSetUp (type : ColorType) (p : ColorPopup Color) : Prop :=
  p.m_colorType = some (modeOfType type) ∧
  p.colorPaletteContainerVisible = decide (type = ColorType.IndexType) ∧
  p.m_rgbSliders.visible = decide (type = ColorType.RgbType) ∧
  p.m_hsvSliders.visible = decide (type = ColorType.HsvType) ∧
  p.m_graySlider.visible = decide (type = ColorType.GrayType) ∧
  p.maskLabelVisible = decide (type = ColorType.MaskType)

/-- The block `if (m_simpleColors) ...` of `setColor`, on its own. -/
def setColorStrip (d : Deps Color Palette Dbl) (g_simplePal : Option Palette)
    (color : Color) (p : ColorPopup Color) : Option (ColorPopup Color) :=
  match p.m_simpleColors with
  | some sc =>
    match g_simplePal with
    | none => none
    | some pal =>
      let r := d.getRed color
      let g := d.getGreen color
      let b := d.getBlue color
      let a := d.getAlpha color
      let i := d.findExactMatch pal r g b a (-1)
      (if i ≥ 0 then sc.selectColor (d.size pal) i else sc.deselect (d.size pal)).bind
        (fun sc => some { p with m_simpleColors := some sc })
  | none => some p

/-- The statements of `setColor` after the block `if (m_simpleColors) ...`,
on their own. -/
def setColorRest (d : Deps Color Palette Dbl) (color : Color) (options : SetColorOptions)
    (p : ColorPopup Color) : ColorPopup Color :=
  let p :=
    if d.getType color = .IndexType then { p with m_colorPalette := some (d.getIndex color) }
    else p
  let p := { p with m_rgbSliders := { p.m_rgbSliders with color := some p.m_color } }
  let p := { p with m_hsvSliders := { p.m_hsvSliders with color := some p.m_color } }
  let p := { p with m_graySlider := { p.m_graySlider with color := some p.m_color } }
  let p :=
    if !p.m_disableHexUpdate then { p with m_hexColorEntry := p.m_color :: p.m_hexColorEntry }
    else p
  if options = .ChangeType then p.selectColorType (d.getType p.m_color) else p

end ColorPopup

/-! ## The global `g_simplePal` and the popups that share it -/

/-- The part of the program state `color_popup.cpp` works on: the file-level
global `g_simplePal` (`none` for a null pointer) and the popups alive. -/
structure World (Color Palette : Type) where
  g_simplePal : Option Palette
  popups : List (ColorPopup Color)

/-- The member functions of a popup that code outside the class, or an
event of the toolkit, can start; each carries the arguments of the call and,
where the function reads it, the result of `get_current_palette()`. -/
inductive Call (Color Palette : Type) where
  | setColor (color : Color) (options : SetColorOptions)
  | setColorWithSignal (color : Color)
  | onPaletteViewIndexChange (index : Int)
  | onColorSlidersChange (currentPalette : Palette) (color : Color)
  | onColorHexEntryChange (currentPalette : Palette) (color : Color)
  | onSimpleColorClick
  | onColorTypeClick
  | onPaletteChange
  | onItemClick (i : Nat)

/-- Run one call on a popup. -/
def Call.run {Color Palette Dbl : Type} (d : Deps Color Palette Dbl)
    (g_simplePal : Option Palette) (p : ColorPopup Color) :
    Call Color Palette → Option (ColorPopup Color)
  | .setColor color options => p.setColor d g_simplePal color options
  | .setColorWithSignal color => p.setColorWithSignal d g_simplePal color
  | .onPaletteViewIndexChange index => p.onPaletteViewIndexChange d g_simplePal index
  | .onColorSlidersChange cur color => p.onColorSlidersChange d g_simplePal cur color
  | .onColorHexEntryChange cur color => p.onColorHexEntryChange d g_simplePal cur color
  | .onSimpleColorClick => p.onSimpleColorClick d g_simplePal
  | .onColorTypeClick => p.onColorTypeClick d g_simplePal
  | .onPaletteChange => p.onPaletteChange d g_simplePal
  | .onItemClick i => p.onItemClick d g_simplePal i

/-- The worlds the program can be in: it starts with a null `g_simplePal`
and no popup; a popup is constructed (with any arguments and any outcome of
the file lookup), a call on a popup returns, or a popup is destroyed. -/
inductive Reachable {Color Palette Dbl : Type} (d : Deps Color Palette Dbl) :
    World Color Palette → Prop where
  | start : Reachable d { g_simplePal := none, popups := [] }
  | construct (w : World Color Palette) (canPin showSimpleColors findFirst : Bool)
      (load_palette : Option Palette) :
      Reachable d w →
      Reachable d
        { g_simplePal :=
            (ColorPopup.new d canPin showSimpleColors findFirst load_palette w.g_simplePal).1
          popups := w.popups ++
            [(ColorPopup.new d canPin showSimpleColors findFirst load_palette w.g_simplePal).2] }
  | call (w : World Color Palette) (i : Nat) (c : Call Color Palette)
      (p q : ColorPopup Color) :
      Reachable d w → w.popups.get? i = some p → c.run d w.g_simplePal p = some q →
      Reachable d { w with popups := w.popups.set i q }
  | destroy (w : World Color Palette) (i : Nat) :
      Reachable d w → Reachable d { w with popups := w.popups.eraseIdx i }

/-! ## A concrete instance of the collaborators

Used to run the operations on explicit inputs. -/

/-- A colour of the concrete instance: its type, its four channels and its
palette index. -/
structure SampleColor where
  type : ColorType
  r : Int
  g : Int
  b : Int
  a : Int
  index : Int
  deriving DecidableEq, Repr

/-- Position of the first entry of `pal` equal to `c`, counted from `i`;
`-1` when there is none. -/
def sampleFind (c : Nat) : List Nat → Int → Int
  | [], _ => -1
  | e :: es, i => if e = c then i else sampleFind c es (i + 1)

/-- The concrete instance: a palette is the list of its entries, a
`color_t` packs the channels as `r + 256 g + 65536 b + 16777216 a`, and
`double` is instantiated with the integers. -/
def sampleDeps : Deps SampleColor (List Nat) Int where
  fromMask := { type := .MaskType, r := 0, g := 0, b := 0, a := 0, index := 0 }
  fromRgb := fun r g b a => { type := .RgbType, r := r, g := g, b := b, a := a, index := 0 }
  fromHsv := fun h s v a => { type := .HsvType, r := h, g := s, b := v, a := a, index := 0 }
  fromGray := fun k a => { type := .GrayType, r := k, g := k, b := k, a := a, index := 0 }
  fromIndex := fun i => { type := .IndexType, r := 0, g := 0, b := 0, a := 255, index := i }
  getType := fun c => c.type
  getRed := fun c => c.r
  getGreen := fun c => c.g
  getBlue := fun c => c.b
  getAlpha := fun c => c.a
  getGray := fun c => c.r
  getIndex := fun c => c.index
  getHue := fun c => c.r
  getSaturation := fun c => c.g
  getValue := fun c => c.b
  size := fun pal => pal.length
  getEntry := fun pal i => pal.getD i 0
  findExactMatch := fun pal r g b a _ =>
    sampleFind (r + 256 * g + 65536 * b + 16777216 * a).toNat pal 0
  findBestfit := fun pal _ _ _ _ _ => if pal.isEmpty then -1 else 0
  rgba_getr := fun c => (c % 256 : Nat)
  rgba_getg := fun c => (c / 256 % 256 : Nat)
  rgba_getb := fun c => (c / 65536 % 256 : Nat)
  rgba_geta := fun c => (c / 16777216 % 256 : Nat)

/-- Red, fully opaque, as an RGB colour of the concrete instance. -/
def sampleRed : SampleColor :=
  { type := .RgbType, r := 255, g := 0, b := 0, a := 255, index := 0 }

/-- Palette entry 3 as an indexed colour of the concrete instance. -/
def sampleIndex3 : SampleColor :=
  { type := .IndexType, r := 0, g := 0, b := 0, a := 255, index := 3 }

/-- A two-entry simple-colours palette of the concrete instance: opaque red
and opaque green. -/
def samplePal : List Nat := [4278190335, 4278255360]

/-- The global and the popup after the first construction of the program,
`ColorPopup(false, true)`, when `palettes/tags.gpl` is found and loads as
`samplePal`. -/
def sampleWorld : World SampleColor (List Nat) :=
  { g_simplePal := (ColorPopup.new sampleDeps false true true (some samplePal) none).1
    popups := [] ++ [(ColorPopup.new sampleDeps false true true (some samplePal) none).2] }

/-! ## `app::cmd::SetPixelFormat`

The header `set_pixel_format.h` defines `onMemSize` inline and declares the
rest of the class; `set_pixel_format.cpp`, `doc::Sprite`, `CmdSequence` and
the conversion routine are not among the files at hand.  The definitions
marked "Modelled from the spec" follow the specification of the command
instead. -/

/-- The modulus of `size_t` arithmetic (a 64-bit build). -/
def SIZE_MOD : Nat := 2 ^ 64

namespace cmd

/-- Modelled from the spec: `doc::PixelFormat` (`doc/pixel_format.h` is
missing), "the in-memory color representation of an image (e.g., indexed,
true-color, grayscale)". -/
inductive PixelFormat where
  | indexed
  | trueColor
  | grayscale
  deriving DecidableEq, Repr

/-- Modelled from the spec: `render::DitheringAlgorithm`
(`render/dithering_algorithm.h` is missing), "a dithering policy (an
enumerated algorithm or none)". -/
inductive DitheringAlgorithm where
  | none
  | algorithm (id : Nat)
  deriving DecidableEq, Repr

/-- Modelled from the spec: `doc::Sprite` (missing), the mutable document
model that "holds sprite pixel data, format, and palette". -/
structure Sprite where
  format : PixelFormat
  pixels : List Nat
  palette : List Nat
  deriving DecidableEq, Repr

/-- Modelled from the spec: the error taxonomy of section 7, as far as a
command can meet it. -/
inductive CmdError where
  | InvalidTarget
  | ConversionUnsupported
  | OutOfMemory
  deriving DecidableEq, Repr

/-- Modelled from the spec: the external conversion service (missing),
`convert(image, fromFormat, toFormat, ditherAlgorithm, palette) -> newImage |
ConversionError`, and the palette a conversion generates, if it generates
one.  Both are arbitrary. -/
structure ConversionService where
  convert : List Nat → PixelFormat → PixelFormat → DitheringAlgorithm → List Nat →
    Except CmdError (List Nat)
  generatedPalette :
    List Nat → PixelFormat → PixelFormat → DitheringAlgorithm → List Nat →
      Option (List Nat)

/-- Modelled from the spec: the sub-commands a pixel format change records
(their classes are missing).  Each is a reversible command on the document
model ("read/replace pixel buffer, read/replace palette") holding a
"prior-state snapshot" and its "new-state parameters". -/
inductive SubCmd where
  | ReplacePixels (oldPixels newPixels : List Nat)
  | SetPalette (oldPalette newPalette : List Nat)
  deriving DecidableEq, Repr

/-- Modelled from the spec: `execute()` of a sub-command (missing), which
"captures the current relevant state as oldState" and "applies newState to
the target". -/
def SubCmd.execute : SubCmd → Sprite → SubCmd × Sprite
  | .ReplacePixels _ newPixels, s =>
    (.ReplacePixels s.pixels newPixels, { s with pixels := newPixels })
  | .SetPalette _ newPalette, s =>
    (.SetPalette s.palette newPalette, { s with palette := newPalette })

/-- Modelled from the spec: `undo()` of a sub-command (missing), which
"restores oldState". -/
def SubCmd.undo : SubCmd → Sprite → Sprite
  | .ReplacePixels oldPixels _, s => { s with pixels := oldPixels }
  | .SetPalette oldPalette _, s => { s with palette := oldPalette }

/-- Modelled from the spec: `redo()` of a sub-command (missing), which
"re-applies newState". -/
def SubCmd.redo : SubCmd → Sprite → Sprite
  | .ReplacePixels _ newPixels, s => { s with pixels := newPixels }
  | .SetPalette _ newPalette, s => { s with palette := newPalette }

/-- Modelled from the spec: `CmdSequence` (`app/cmd_sequence.h` is missing),
an "ordered list of child commands". -/
structure CmdSequence where
  cmds : List SubCmd
  deriving DecidableEq, Repr

/-- Modelled from the spec: executing a list of children "in forward order",
each child capturing its snapshot when its turn comes. -/
def CmdSequence.executeFrom : List SubCmd → Sprite → List SubCmd × Sprite
  | [], s => ([], s)
  | c :: cs, s =>
    let r := c.execute s
    let rs := CmdSequence.executeFrom cs r.2
    (r.1 :: rs.1, rs.2)

/-- Modelled from the spec: `CmdSequence::execute` (missing), which applies
"all children in forward order". -/
def CmdSequence.execute (seq : CmdSequence) (s : Sprite) : CmdSequence × Sprite :=
  let r := CmdSequence.executeFrom seq.cmds s
  ({ cmds := r.1 }, r.2)

/-- Modelled from the spec: `CmdSequence::undo` (missing), which applies the
children in "reverse order for undo". -/
def CmdSequence.undo (seq : CmdSequence) (s : Sprite) : Sprite :=
  seq.cmds.reverse.foldl (fun t c => c.undo t) s

/-- Modelled from the spec: `CmdSequence::redo` (missing), which applies the
children in "forward order for do/redo". -/
def CmdSequence.redo (seq : CmdSequence) (s : Sprite) : Sprite :=
  seq.cmds.foldl (fun t c => c.redo t) s

/-- The data members of the class `SetPixelFormat`, as the header declares
them. -/
structure SetPixelFormat where
  m_oldFormat : PixelFormat
  m_newFormat : PixelFormat
  m_dithering : DitheringAlgorithm
  m_seq : CmdSequence
  deriving DecidableEq, Repr

namespace SetPixelFormat

/-- The member `SetPixelFormat::onMemSize()` of the header:
`sizeof(*this) + m_seq.memSize()` in `size_t` arithmetic.  `sizeofThis` is
`sizeof(*this)` and `memSize` is `CmdSequence::memSize` (missing); both give
`size_t` values. -/
def onMemSize (sizeofThis : Nat) (memSize : CmdSequence → Nat) (c : SetPixelFormat) : Nat :=
  (sizeofThis + memSize c.m_seq) % SIZE_MOD

/-- Modelled from the spec: the constructor (declared in the header, defined
in the missing `set_pixel_format.cpp`).  The command holds "just enough state
to compute and reverse the edit": the format of the sprite, the requested
format and the dithering; nothing is recorded yet. -/
def new (sprite : Sprite) (newFormat : PixelFormat) (dithering : DitheringAlgorithm) :
    SetPixelFormat :=
  { m_oldFormat := sprite.format
    m_newFormat := newFormat
    m_dithering := dithering
    m_seq := { cmds := [] } }

/-- Modelled from the spec: the private member `setFormat(format)` (declared
in the header, defined in the missing `set_pixel_format.cpp`): it replaces
the format of the sprite. -/
def setFormat (format : PixelFormat) (s : Sprite) : Sprite :=
  { s with format := format }

/-- Modelled from the spec: `onExecute()` (declared in the header, defined in
the missing `set_pixel_format.cpp`).  It "captures the current relevant state
as oldState, computes and applies newState to the target, and records any
side-effect sub-operations into its sequence"; "if format conversion fails
... the command must not partially mutate the target; it reports failure and
leaves the target and history untouched".  The result is the outcome reported
to the caller, the command afterwards and the sprite afterwards. -/
def onExecute (svc : ConversionService) (c : SetPixelFormat) (s : Sprite) :
    Except CmdError Unit × SetPixelFormat × Sprite :=
  match svc.convert s.pixels s.format c.m_newFormat c.m_dithering s.palette with
  | .error e => (.error e, c, s)
  | .ok newPixels =>
    let recorded : List SubCmd :=
      match svc.generatedPalette s.pixels s.format c.m_newFormat c.m_dithering s.palette with
      | some pal => [.ReplacePixels s.pixels newPixels, .SetPalette s.palette pal]
      | none => [.ReplacePixels s.pixels newPixels]
    let r := CmdSequence.execute { cmds := recorded } s
    (.ok (), { c with m_oldFormat := s.format, m_seq := r.1 }, setFormat c.m_newFormat r.2)

/-- Modelled from the spec: `onUndo()` (declared in the header, defined in the
missing `set_pixel_format.cpp`), which "restores oldState by replaying
captured sub-commands in reverse". -/
def onUndo (c : SetPixelFormat) (s : Sprite) : Sprite :=
  setFormat c.m_oldFormat (c.m_seq.undo s)

/-- Modelled from the spec: `onRedo()` (declared in the header, defined in the
missing `set_pixel_format.cpp`), which "replays recorded sub-commands
forward". -/
def onRedo (c : SetPixelFormat) (s : Sprite) : Sprite :=
  setFormat c.m_newFormat (c.m_seq.redo s)

end SetPixelFormat

/-- A conversion service used to run the command on explicit inputs: it
converts to indexed format by mapping every pixel to entry `0` and generating
a one-entry palette, keeps the pixels for a conversion to true colour, and
does not support conversions to grayscale. -/
def sampleService : ConversionService where
  convert := fun image _ toFormat _ _ =>
    match toFormat with
    | .indexed => .ok (image.map (fun _ => 0))
    | .trueColor => .ok image
    | .grayscale => .error .ConversionUnsupported
  generatedPalette := fun image _ toFormat _ _ =>
    match toFormat with
    | .indexed => some [image.headD 0]
    | _ => none

/-- A true-colour sprite of three pixels with an empty palette. -/
def sampleSprite : Sprite :=
  { format := .trueColor, pixels := [7, 8, 9], palette := [] }

/-- The command converting `sampleSprite` to indexed format without
dithering, as constructed. -/
def sampleCmd : SetPixelFormat :=
  SetPixelFormat.new sampleSprite .indexed .none

/-- The command `sampleCmd` after `onExecute` with `sampleService`: its
sequence holds the two recorded sub-commands. -/
def sampleCmdExecuted : SetPixelFormat :=
  (sampleCmd.onExecute sampleService sampleSprite).2.1

/-- A footprint for sequences, used to run `onMemSize` on explicit inputs:
24 bytes for the sequence and 48 bytes per child. -/
def sampleMemSize (seq : CmdSequence) : Nat :=
  24 + 48 * seq.cmds.length

end cmd

end app

/-! # Properties of `SetPixelFormat` -/

namespace app.cmd

/-- Undoing a sub-command right after executing it gives back the sprite it
was executed on. -/
theorem SubCmd.undo_after_execute (c : SubCmd) (s : Sprite) :
    (c.execute s).1.undo (c.execute s).2 = s := by
  cases c <;> rfl

/-- Undoing, last child first, the children a forward execution returns gives
back the sprite the execution started from. -/
theorem CmdSequence.undo_executeFrom (cs : List SubCmd) (s : Sprite) :
    (CmdSequence.executeFrom cs s).1.reverse.foldl (fun t c => c.undo t)
      (CmdSequence.executeFrom cs s).2 = s := by
  induction cs generalizing s with
  | nil => rfl
  | cons c cs ih =>
    simp only [CmdSequence.executeFrom, List.reverse_cons, List.foldl_append, List.foldl_cons,
      List.foldl_nil]
    rw [ih]
    exact SubCmd.undo_after_execute c s

/-- Undoing a sequence right after executing it gives back the sprite it was
executed on. -/
theorem CmdSequence.undo_after_execute_seq (seq : CmdSequence) (s : Sprite) :
    (seq.execute s).1.undo (seq.execute s).2 = s :=
  CmdSequence.undo_executeFrom seq.cmds s

/-- A format set before a sequence is undone is overwritten by the format set
after it: undoing a sequence does not read the format. -/
theorem SetPixelFormat.setFormat_undo_eq (c : CmdSequence) (f g : PixelFormat) (s : Sprite) :
    SetPixelFormat.setFormat f (c.undo (SetPixelFormat.setFormat g s)) =
      SetPixelFormat.setFormat f (c.undo s) := by
  unfold CmdSequence.undo
  generalize c.cmds.reverse = cs
  induction cs generalizing s with
  | nil => rfl
  | cons c cs ih =>
    simp only [List.foldl_cons]
    have h : SubCmd.undo c (SetPixelFormat.setFormat g s) =
        SetPixelFormat.setFormat g (SubCmd.undo c s) := by
      cases c <;> rfl
    rw [h, ih]

/-- In `size_t` arithmetic `onMemSize` is the sum of the two sizes reduced
modulo `SIZE_MOD`, whatever the sizes. -/
theorem SetPixelFormat.onMemSize_mod (sizeofThis : Nat) (memSize : CmdSequence → Nat)
    (c : SetPixelFormat) :
    c.onMemSize sizeofThis memSize = (sizeofThis + memSize c.m_seq) % SIZE_MOD :=
  rfl

/-- C1: the footprint `onMemSize` reports is the size of the command object
plus the footprint its sequence `m_seq` reports; hence it is at least the
footprint of the sequence, and between two states of a command it changes by
exactly the change of the footprint of the sequence.  The sizes are `size_t`
values whose sum is a byte count that fits `size_t`. -/
theorem SetPixelFormat.onMemSize_eq_own_plus_seq (sizeofThis : Nat)
    (memSize : CmdSequence → Nat) (c c' : SetPixelFormat)
    (h : sizeofThis + memSize c.m_seq < SIZE_MOD)
    (h' : sizeofThis + memSize c'.m_seq < SIZE_MOD) :
    c.onMemSize sizeofThis memSize = sizeofThis + memSize c.m_seq ∧
    memSize c.m_seq ≤ c.onMemSize sizeofThis memSize ∧
    (c'.onMemSize sizeofThis memSize : Int) - (c.onMemSize sizeofThis memSize : Int) =
      (memSize c'.m_seq : Int) - (memSize c.m_seq : Int) := by
  have e : c.onMemSize sizeofThis memSize = sizeofThis + memSize c.m_seq :=
    Nat.mod_eq_of_lt h
  have e' : c'.onMemSize sizeofThis memSize = sizeofThis + memSize c'.m_seq :=
    Nat.mod_eq_of_lt h'
  refine ⟨e, ?_, ?_⟩
  · rw [e]; exact Nat.le_add_left _ _
  · rw [e, e']; push_cast; ring

/-- C1 at a command object of 64 bytes, before and after `onExecute` records
two sub-commands: the sequence reports 24 bytes, then 120 bytes. -/
theorem SetPixelFormat.onMemSize_eq_own_plus_seq_witness :
    (64 + sampleMemSize sampleCmd.m_seq < SIZE_MOD) ∧
    (64 + sampleMemSize sampleCmdExecuted.m_seq < SIZE_MOD) ∧
    (sampleCmd.onMemSize 64 sampleMemSize = 64 + sampleMemSize sampleCmd.m_seq ∧
    sampleMemSize sampleCmd.m_seq ≤ sampleCmd.onMemSize 64 sampleMemSize ∧
    (sampleCmdExecuted.onMemSize 64 sampleMemSize : Int) -
        (sampleCmd.onMemSize 64 sampleMemSize : Int) =
      (sampleMemSize sampleCmdExecuted.m_seq : Int) - (sampleMemSize sampleCmd.m_seq : Int)) :=
  ⟨by decide, by decide,
    SetPixelFormat.onMemSize_eq_own_plus_seq 64 sampleMemSize sampleCmd sampleCmdExecuted
      (by decide) (by decide)⟩

/-- C2: when the conversion is supported (the service returns an image),
`onExecute` reports success, and `onUndo` of the executed command gives back
the sprite as it was before `onExecute`: format, pixels and palette, also
when the conversion generated a palette. -/
theorem SetPixelFormat.onUndo_onExecute (svc : ConversionService) (c : SetPixelFormat)
    (s : Sprite) (newPixels : List Nat)
    (h : svc.convert s.pixels s.format c.m_newFormat c.m_dithering s.palette = .ok newPixels) :
    (c.onExecute svc s).1 = .ok () ∧
    (c.onExecute svc s).2.1.onUndo (c.onExecute svc s).2.2 = s := by
  unfold SetPixelFormat.onExecute
  rw [h]
  refine ⟨rfl, ?_⟩
  simp only [SetPixelFormat.onUndo]
  rw [SetPixelFormat.setFormat_undo_eq, CmdSequence.undo_after_execute_seq]
  rfl

/-- C2 at `sampleSprite` converted to indexed format, where the service
generates a palette. -/
theorem SetPixelFormat.onUndo_onExecute_witness :
    (sampleService.convert sampleSprite.pixels sampleSprite.format sampleCmd.m_newFormat
      sampleCmd.m_dithering sampleSprite.palette = .ok [0, 0, 0]) ∧
    ((sampleCmd.onExecute sampleService sampleSprite).2.2 =
      { format := .indexed, pixels := [0, 0, 0], palette := [7] }) ∧
    ((sampleCmd.onExecute sampleService sampleSprite).1 = .ok () ∧
    (sampleCmd.onExecute sampleService sampleSprite).2.1.onUndo
      (sampleCmd.onExecute sampleService sampleSprite).2.2 = sampleSprite) :=
  ⟨rfl, by decide,
    SetPixelFormat.onUndo_onExecute sampleService sampleCmd sampleSprite [0, 0, 0] rfl⟩

/-- C3: when the conversion fails with error `e`, `onExecute` reports `e` to
its caller and leaves the sprite (format, pixels, palette) and the command as
they were. -/
theorem SetPixelFormat.onExecute_failure (svc : ConversionService) (c : SetPixelFormat)
    (s : Sprite) (e : CmdError)
    (h : svc.convert s.pixels s.format c.m_newFormat c.m_dithering s.palette = .error e) :
    c.onExecute svc s = (.error e, c, s) := by
  unfold SetPixelFormat.onExecute
  rw [h]

/-- C3 at `sampleSprite` and the conversion to grayscale, which
`sampleService` does not support. -/
theorem SetPixelFormat.onExecute_failure_witness :
    (sampleService.convert sampleSprite.pixels sampleSprite.format
      (SetPixelFormat.new sampleSprite .grayscale .none).m_newFormat
      (SetPixelFormat.new sampleSprite .grayscale .none).m_dithering sampleSprite.palette =
        .error .ConversionUnsupported) ∧
    (SetPixelFormat.new sampleSprite .grayscale .none).onExecute sampleService sampleSprite =
      (.error .ConversionUnsupported, SetPixelFormat.new sampleSprite .grayscale .none,
        sampleSprite) :=
  ⟨rfl, SetPixelFormat.onExecute_failure sampleService
    (SetPixelFormat.new sampleSprite .grayscale .none) sampleSprite .ConversionUnsupported rfl⟩

end app.cmd

/-! # Properties of `ColorPopup` -/

namespace app

variable {Color Palette Dbl : Type}

/-- The constructor loop adds one child per round. -/
theorem SimpleColors.addItems_length (d : Deps Color Palette Dbl) (pal : Palette)
    (i k : Nat) (cs : List (SimpleColorsItem Color)) :
    (SimpleColors.addItems d pal i k cs).length = cs.length + k := by
  induction k generalizing i cs with
  | zero => rfl
  | succ k ih =>
    simp only [SimpleColors.addItems]
    rw [ih]
    simp only [List.length_append, List.length_singleton]
    omega

/-- The strip the constructor builds has one child per palette entry. -/
theorem SimpleColors.new_length (d : Deps Color Palette Dbl) (pal : Palette) :
    (SimpleColors.new d pal).children.length = d.size pal := by
  simp [SimpleColors.new, SimpleColors.addItems_length]

/-- The selection loop stays inside the children, and keeps their number,
when it runs over no more positions than there are children. -/
theorem SimpleColors.setSelectedLoop_some (sel : Nat → Bool) (i k : Nat)
    (cs : List (SimpleColorsItem Color)) (h : i + k ≤ cs.length) :
    ∃ cs', SimpleColors.setSelectedLoop sel i k cs = some cs' ∧ cs'.length = cs.length := by
  induction k generalizing i cs with
  | zero => exact ⟨cs, rfl, rfl⟩
  | succ k ih =>
    have hi : i < cs.length := by omega
    simp only [SimpleColors.setSelectedLoop, List.get?_eq_getElem?, List.getElem?_eq_getElem hi]
    obtain ⟨cs', h1, h2⟩ := ih (i + 1)
      (cs.set i { cs[i] with selected := sel i }) (by simp only [List.length_set]; omega)
    exact ⟨cs', h1, by simpa using h2⟩

/-- `selectColor` succeeds and keeps the number of children when the strip
has as many children as the palette has entries. -/
theorem SimpleColors.selectColor_some (n : Nat) (index : Int) (sc : SimpleColors Color)
    (h : sc.children.length = n) :
    ∃ sc', sc.selectColor n index = some sc' ∧ sc'.children.length = n := by
  obtain ⟨cs', h1, h2⟩ := SimpleColors.setSelectedLoop_some
    (fun i => decide ((i : Int) = index)) 0 n sc.children (by omega)
  exact ⟨{ children := cs' }, by simp [SimpleColors.selectColor, h1], by simpa [h] using h2⟩

/-- `deselect` succeeds and keeps the number of children when the strip has
as many children as the palette has entries. -/
theorem SimpleColors.deselect_some (n : Nat) (sc : SimpleColors Color)
    (h : sc.children.length = n) :
    ∃ sc', sc.deselect n = some sc' ∧ sc'.children.length = n := by
  obtain ⟨cs', h1, h2⟩ := SimpleColors.setSelectedLoop_some
    (fun _ => false) 0 n sc.children (by omega)
  exact ⟨{ children := cs' }, by simp [SimpleColors.deselect, h1], by simpa [h] using h2⟩

namespace ColorPopup

/-- `setColor` is its strip block followed by the rest of its statements. -/
theorem setColor_eq (d : Deps Color Palette Dbl) (g : Option Palette) (color : Color)
    (options : SetColorOptions) (p : ColorPopup Color) :
    p.setColor d g color options =
      (setColorStrip d g color { p with m_color := color }).map
        (setColorRest d color options) := by
  rcases p with ⟨c0, cp, _ | sc, ct, hex, rs, hs, gs, pv, mv, pin, dis, cc⟩
  · rfl
  · cases g with
    | none => rfl
    | some pal =>
      by_cases hi : d.findExactMatch pal (d.getRed color) (d.getGreen color) (d.getBlue color)
          (d.getAlpha color) (-1) ≥ 0
      · cases ho : SimpleColors.selectColor (d.size pal) (d.findExactMatch pal (d.getRed color)
            (d.getGreen color) (d.getBlue color) (d.getAlpha color) (-1)) sc with
        | none =>
          simp only [setColor, setColorStrip, hi, ho, if_true, if_false, ↓reduceIte]
          rfl
        | some sc' =>
          simp only [setColor, setColorStrip, hi, ho, if_true, if_false, ↓reduceIte]
          rfl
      · cases ho : SimpleColors.deselect (d.size pal) sc with
        | none =>
          simp only [setColor, setColorStrip, hi, ho, if_true, if_false, ↓reduceIte]
          rfl
        | some sc' =>
          simp only [setColor, setColorStrip, hi, ho, if_true, if_false, ↓reduceIte]
          rfl

/-- On a popup consistent with the global, the strip block of `setColor`
returns, changes the strip only, and keeps the popup consistent. -/
theorem setColorStrip_some (d : Deps Color Palette Dbl) (g : Option Palette) (color : Color)
    (p : ColorPopup Color) (hp : StripOk d g p) :
    ∃ q, setColorStrip d g color p = some q ∧
      q = { p with m_simpleColors := q.m_simpleColors } ∧ StripOk d g q := by
  cases hsc : p.m_simpleColors with
  | none =>
    refine ⟨p, by simp only [setColorStrip, hsc], rfl, hp⟩
  | some sc =>
    obtain ⟨pal, hg, hlen⟩ := hp sc hsc
    subst hg
    have key : ∀ o : Option (SimpleColors Color),
        (∃ sc', o = some sc' ∧ sc'.children.length = d.size pal) →
        ∃ q, o.bind (fun sc => some { p with m_simpleColors := some sc }) = some q ∧
          q = { p with m_simpleColors := q.m_simpleColors } ∧ StripOk d (some pal) q := by
      rintro o ⟨sc', rfl, hl⟩
      refine ⟨{ p with m_simpleColors := some sc' }, rfl, rfl, ?_⟩
      intro sc2 h2
      have e : sc' = sc2 := by simpa using h2
      subst e
      exact ⟨pal, rfl, hl⟩
    simp only [setColorStrip, hsc]
    apply key
    split
    · exact SimpleColors.selectColor_some _ _ sc hlen
    · exact SimpleColors.deselect_some _ sc hlen

/-- What `selectColorType` leaves alone. -/
theorem selectColorType_frame (type : ColorType) (p : ColorPopup Color) :
    (p.selectColorType type).m_color = p.m_color ∧
    (p.selectColorType type).m_colorPalette = p.m_colorPalette ∧
    (p.selectColorType type).m_simpleColors = p.m_simpleColors ∧
    (p.selectColorType type).m_hexColorEntry = p.m_hexColorEntry ∧
    (p.selectColorType type).m_rgbSliders.color = p.m_rgbSliders.color ∧
    (p.selectColorType type).m_hsvSliders.color = p.m_hsvSliders.color ∧
    (p.selectColorType type).m_graySlider.color = p.m_graySlider.color ∧
    (p.selectColorType type).m_canPin = p.m_canPin ∧
    (p.selectColorType type).m_disableHexUpdate = p.m_disableHexUpdate ∧
    (p.selectColorType type).ColorChange = p.ColorChange := by
  exact ⟨rfl, rfl, rfl, rfl, rfl, rfl, rfl, rfl, rfl, rfl⟩

/-- After `selectColorType(type)` the colour type is set up for `type`. -/
theorem selectColorType_setUp (type : ColorType) (p : ColorPopup Color) :
    TypeSetUp type (p.selectColorType type) := by
  exact ⟨rfl, rfl, rfl, rfl, rfl, rfl⟩

/-- The statements of `setColor` after the strip block, run with
`DoNotChangeType`: the sliders take the colour of the popup, the hex entry
is written unless `m_disableHexUpdate` is set, and selected colour type,
visibility of the panels and everything else stay as they were. -/
theorem setColorRest_doNotChangeType (d : Deps Color Palette Dbl) (color : Color)
    (q : ColorPopup Color) :
    (setColorRest d color .DoNotChangeType q).m_color = q.m_color ∧
    (setColorRest d color .DoNotChangeType q).m_simpleColors = q.m_simpleColors ∧
    (setColorRest d color .DoNotChangeType q).m_hexColorEntry =
      (if q.m_disableHexUpdate then q.m_hexColorEntry else q.m_color :: q.m_hexColorEntry) ∧
    (setColorRest d color .DoNotChangeType q).m_rgbSliders.color = some q.m_color ∧
    (setColorRest d color .DoNotChangeType q).m_hsvSliders.color = some q.m_color ∧
    (setColorRest d color .DoNotChangeType q).m_graySlider.color = some q.m_color ∧
    (setColorRest d color .DoNotChangeType q).m_disableHexUpdate = q.m_disableHexUpdate ∧
    (setColorRest d color .DoNotChangeType q).ColorChange = q.ColorChange ∧
    (setColorRest d color .DoNotChangeType q).m_colorType = q.m_colorType ∧
    (setColorRest d color .DoNotChangeType q).colorPaletteContainerVisible =
      q.colorPaletteContainerVisible ∧
    (setColorRest d color .DoNotChangeType q).m_rgbSliders.visible = q.m_rgbSliders.visible ∧
    (setColorRest d color .DoNotChangeType q).m_hsvSliders.visible = q.m_hsvSliders.visible ∧
    (setColorRest d color .DoNotChangeType q).m_graySlider.visible = q.m_graySlider.visible ∧
    (setColorRest d color .DoNotChangeType q).maskLabelVisible = q.maskLabelVisible := by
  rcases q with ⟨c0, cp, sc, ct, hex, rs, hs, gs, pv, mv, pin, dis, cc⟩
  by_cases ht : d.getType color = ColorType.IndexType <;> cases dis <;>
    simp [setColorRest, ht]

/-- With `ChangeType`, the statements of `setColor` after the strip block
are those with `DoNotChangeType` followed by `selectColorType`. -/
theorem setColorRest_changeType (d : Deps Color Palette Dbl) (color : Color)
    (q : ColorPopup Color) :
    setColorRest d color .ChangeType q =
      (setColorRest d color .DoNotChangeType q).selectColorType (d.getType q.m_color) := by
  rcases q with ⟨c0, cp, sc, ct, hex, rs, hs, gs, pv, mv, pin, dis, cc⟩
  by_cases ht : d.getType color = ColorType.IndexType <;> cases dis <;>
    simp [setColorRest, ht]

/-- What `setColor` does to a popup consistent with the global: it returns;
the popup holds the colour; the three sliders are set to it; the hex entry is
written exactly when `m_disableHexUpdate` is clear; the flag and the emissions
of `ColorChange` are untouched; the popup stays consistent with the global;
with `ChangeType` the colour type is set up for the type of the colour, with
`DoNotChangeType` selected item and visible panels stay as they were. -/
theorem setColor_spec (d : Deps Color Palette Dbl) (g : Option Palette) (color : Color)
    (options : SetColorOptions) (p : ColorPopup Color) (hp : StripOk d g p) :
    ∃ q, p.setColor d g color options = some q ∧
      q.m_color = color ∧
      StripOk d g q ∧
      q.m_hexColorEntry =
        (if p.m_disableHexUpdate then p.m_hexColorEntry else color :: p.m_hexColorEntry) ∧
      q.m_rgbSliders.color = some color ∧
      q.m_hsvSliders.color = some color ∧
      q.m_graySlider.color = some color ∧
      q.m_disableHexUpdate = p.m_disableHexUpdate ∧
      q.ColorChange = p.ColorChange ∧
      (options = .ChangeType → TypeSetUp (d.getType color) q) ∧
      (options = .DoNotChangeType →
        q.m_colorType = p.m_colorType ∧
        q.colorPaletteContainerVisible = p.colorPaletteContainerVisible ∧
        q.m_rgbSliders.visible = p.m_rgbSliders.visible ∧
        q.m_hsvSliders.visible = p.m_hsvSliders.visible ∧
        q.m_graySlider.visible = p.m_graySlider.visible ∧
        q.maskLabelVisible = p.maskLabelVisible) := by
  have hp' : StripOk d g { p with m_color := color } := hp
  obtain ⟨q, hq, hfr, hok⟩ := setColorStrip_some d g color { p with m_color := color } hp'
  have hcol : q.m_color = color := by rw [hfr]
  have hhex : q.m_hexColorEntry = p.m_hexColorEntry := by rw [hfr]
  have hdis : q.m_disableHexUpdate = p.m_disableHexUpdate := by rw [hfr]
  have hcc : q.ColorChange = p.ColorChange := by rw [hfr]
  have hct : q.m_colorType = p.m_colorType := by rw [hfr]
  have hv1 : q.colorPaletteContainerVisible = p.colorPaletteContainerVisible := by rw [hfr]
  have hv2 : q.m_rgbSliders.visible = p.m_rgbSliders.visible := by rw [hfr]
  have hv3 : q.m_hsvSliders.visible = p.m_hsvSliders.visible := by rw [hfr]
  have hv4 : q.m_graySlider.visible = p.m_graySlider.visible := by rw [hfr]
  have hv5 : q.maskLabelVisible = p.maskLabelVisible := by rw [hfr]
  obtain ⟨r1, r2, r3, r4, r5, r6, r7, r8, r9, r10, r11, r12, r13, r14⟩ :=
    setColorRest_doNotChangeType d color q
  refine ⟨setColorRest d color options q, by rw [setColor_eq, hq]; rfl, ?_⟩
  cases options with
  | DoNotChangeType =>
    refine ⟨by rw [r1, hcol], ?_, by rw [r3, hcol, hhex, hdis], by rw [r4, hcol],
      by rw [r5, hcol], by rw [r6, hcol], by rw [r7, hdis], by rw [r8, hcc],
      (fun h => by cases h), fun _ => ⟨by rw [r9, hct], by rw [r10, hv1], by rw [r11, hv2],
        by rw [r12, hv3], by rw [r13, hv4], by rw [r14, hv5]⟩⟩
    intro sc hsc
    exact hok sc (by rw [← r2]; exact hsc)
  | ChangeType =>
    rw [setColorRest_changeType, hcol]
    obtain ⟨f1, f2, f3, f4, f5, f6, f7, f8, f9, f10⟩ :=
      selectColorType_frame (d.getType color) (setColorRest d color .DoNotChangeType q)
    refine ⟨by rw [f1, r1, hcol], ?_, by rw [f4, r3, hcol, hhex, hdis], by rw [f5, r4, hcol],
      by rw [f6, r5, hcol], by rw [f7, r6, hcol], by rw [f9, r7, hdis], by rw [f10, r8, hcc],
      fun _ => ?_, (fun h => by cases h)⟩
    · intro sc hsc
      exact hok sc (by rw [← r2, ← f3]; exact hsc)
    · exact selectColorType_setUp (d.getType color) (setColorRest d color .DoNotChangeType q)

/-- What `setColorWithSignal` does to a popup consistent with the global:
what `setColor` with `ChangeType` does, and one more emission of
`ColorChange`, with the colour as argument and as colour of the popup. -/
theorem setColorWithSignal_spec (d : Deps Color Palette Dbl) (g : Option Palette)
    (color : Color) (p : ColorPopup Color) (hp : StripOk d g p) :
    ∃ q, p.setColorWithSignal d g color = some q ∧
      q.m_color = color ∧
      StripOk d g q ∧
      q.m_hexColorEntry =
        (if p.m_disableHexUpdate then p.m_hexColorEntry else color :: p.m_hexColorEntry) ∧
      q.m_rgbSliders.color = some color ∧
      q.m_hsvSliders.color = some color ∧
      q.m_graySlider.color = some color ∧
      q.m_disableHexUpdate = p.m_disableHexUpdate ∧
      q.ColorChange = p.ColorChange ++ [{ color := color, seen := color }] ∧
      TypeSetUp (d.getType color) q := by
  obtain ⟨q, hq, h1, h2, h3, h4, h5, h6, h7, h8, h9, _⟩ :=
    setColor_spec d g color .ChangeType p hp
  refine ⟨q.fireColorChange color, ?_, h1, h2, h3, h4, h5, h6, h7, ?_, h9 rfl⟩
  · simp only [setColorWithSignal, hq]
    rfl
  · simp only [fireColorChange, getColor, h8, h1]

/-- The member `findBestfitIndex` changes the selection of the palette view
only. -/
theorem findBestfitIndex_frame (d : Deps Color Palette Dbl) (cur : Palette) (color : Color)
    (p : ColorPopup Color) :
    p.findBestfitIndex d cur color =
      { p with m_colorPalette := (p.findBestfitIndex d cur color).m_colorPalette } := by
  unfold findBestfitIndex
  simp only
  split <;> rfl

/-- The constructor leaves the popup consistent with the global it leaves. -/
theorem new_stripOk (d : Deps Color Palette Dbl) (canPin showSimpleColors findFirst : Bool)
    (load_palette g : Option Palette) :
    StripOk d (ColorPopup.new d canPin showSimpleColors findFirst load_palette g).1
      (ColorPopup.new d canPin showSimpleColors findFirst load_palette g).2 := by
  intro sc hsc
  cases showSimpleColors with
  | false => simp [ColorPopup.new, selectColorType] at hsc
  | true =>
    cases g with
    | some pal =>
      refine ⟨pal, rfl, ?_⟩
      simp [ColorPopup.new, selectColorType] at hsc
      rw [← hsc]
      exact SimpleColors.new_length d pal
    | none =>
      cases findFirst with
      | false => simp [ColorPopup.new, selectColorType] at hsc
      | true =>
        cases load_palette with
        | none => simp [ColorPopup.new, selectColorType] at hsc
        | some pal =>
          refine ⟨pal, rfl, ?_⟩
          simp [ColorPopup.new, selectColorType] at hsc
          rw [← hsc]
          exact SimpleColors.new_length d pal

/-- The state the constructor leaves, apart from the strip: the colour is
the mask colour, no colour type item is selected, of the five panels the RGB
sliders alone are visible, the hex entry has not been written, the flag
`m_disableHexUpdate` is clear and `ColorChange` has not been emitted. -/
theorem new_state (d : Deps Color Palette Dbl) (canPin showSimpleColors findFirst : Bool)
    (load_palette g : Option Palette) :
    (ColorPopup.new d canPin showSimpleColors findFirst load_palette g).2.m_color = d.fromMask ∧
    (ColorPopup.new d canPin showSimpleColors findFirst load_palette g).2.m_colorType = none ∧
    (ColorPopup.new d canPin showSimpleColors findFirst load_palette
      g).2.colorPaletteContainerVisible = false ∧
    (ColorPopup.new d canPin showSimpleColors findFirst load_palette g).2.m_rgbSliders.visible
      = true ∧
    (ColorPopup.new d canPin showSimpleColors findFirst load_palette g).2.m_hsvSliders.visible
      = false ∧
    (ColorPopup.new d canPin showSimpleColors findFirst load_palette g).2.m_graySlider.visible
      = false ∧
    (ColorPopup.new d canPin showSimpleColors findFirst load_palette g).2.maskLabelVisible
      = false ∧
    (ColorPopup.new d canPin showSimpleColors findFirst load_palette g).2.m_hexColorEntry = [] ∧
    (ColorPopup.new d canPin showSimpleColors findFirst load_palette g).2.m_disableHexUpdate
      = false ∧
    (ColorPopup.new d canPin showSimpleColors findFirst load_palette g).2.ColorChange = [] := by
  simp [ColorPopup.new, selectColorType]

/-- A popup consistent with the global stays so when the constructor of
another popup runs: the constructor writes the global only when it is
null. -/
theorem stripOk_after_new (d : Deps Color Palette Dbl) (canPin showSimpleColors findFirst : Bool)
    (load_palette g : Option Palette) (p : ColorPopup Color) (hp : StripOk d g p) :
    StripOk d (ColorPopup.new d canPin showSimpleColors findFirst load_palette g).1 p := by
  intro sc hsc
  obtain ⟨pal, hg, hlen⟩ := hp sc hsc
  subst hg
  refine ⟨pal, ?_, hlen⟩
  cases showSimpleColors <;> rfl

/-- Consistency with the global depends on the strip of the popup only. -/
theorem stripOk_congr (d : Deps Color Palette Dbl) (g : Option Palette)
    (p q : ColorPopup Color) (h : q.m_simpleColors = p.m_simpleColors) (hp : StripOk d g p) :
    StripOk d g q := by
  intro sc hsc
  exact hp sc (by rw [← h]; exact hsc)

/-- On a popup consistent with the global, `onColorHexEntryChange` returns;
the hex entry is as before; colour and sliders are set; the flag
`m_disableHexUpdate` is clear; the popup stays consistent with the global. -/
theorem onColorHexEntryChange_some (d : Deps Color Palette Dbl) (g : Option Palette)
    (cur : Palette) (color : Color) (p : ColorPopup Color) (hp : StripOk d g p) :
    ∃ q, p.onColorHexEntryChange d g cur color = some q ∧
      StripOk d g q ∧
      q.m_hexColorEntry = p.m_hexColorEntry ∧
      q.m_color = color ∧
      q.m_rgbSliders.color = some color ∧
      q.m_hsvSliders.color = some color ∧
      q.m_graySlider.color = some color ∧
      q.m_disableHexUpdate = false := by
  have hp1 : StripOk d g { p with m_disableHexUpdate := true } := hp
  obtain ⟨q, hq, h1, h2, h3, h4, h5, h6, _, _, _⟩ :=
    setColorWithSignal_spec d g color { p with m_disableHexUpdate := true } hp1
  have hf := findBestfitIndex_frame d cur color q
  refine ⟨{ q.findBestfitIndex d cur color with m_disableHexUpdate := false }, ?_, ?_, ?_, ?_,
    ?_, ?_, ?_, rfl⟩
  · simp only [onColorHexEntryChange, hq]
    rfl
  · exact stripOk_congr d g q _ (by rw [hf]) h2
  · show (q.findBestfitIndex d cur color).m_hexColorEntry = _
    rw [hf]
    exact h3
  · show (q.findBestfitIndex d cur color).m_color = _
    rw [hf]
    exact h1
  · show (q.findBestfitIndex d cur color).m_rgbSliders.color = _
    rw [hf]
    exact h4
  · show (q.findBestfitIndex d cur color).m_hsvSliders.color = _
    rw [hf]
    exact h5
  · show (q.findBestfitIndex d cur color).m_graySlider.color = _
    rw [hf]
    exact h6

end ColorPopup

/-- Every call on a popup consistent with the global returns, and leaves the
popup consistent with the global. -/
theorem Call.run_some (d : Deps Color Palette Dbl) (g : Option Palette)
    (p : ColorPopup Color) (c : Call Color Palette) (hp : ColorPopup.StripOk d g p) :
    ∃ q, c.run d g p = some q ∧ ColorPopup.StripOk d g q := by
  cases c with
  | setColor color options =>
    obtain ⟨q, hq, _, h2, _⟩ := ColorPopup.setColor_spec d g color options p hp
    exact ⟨q, hq, h2⟩
  | setColorWithSignal color =>
    obtain ⟨q, hq, _, h2, _⟩ := ColorPopup.setColorWithSignal_spec d g color p hp
    exact ⟨q, hq, h2⟩
  | onPaletteViewIndexChange index =>
    obtain ⟨q, hq, _, h2, _⟩ := ColorPopup.setColorWithSignal_spec d g (d.fromIndex index) p hp
    exact ⟨q, hq, h2⟩
  | onColorSlidersChange cur color =>
    obtain ⟨q, hq, _, h2, _⟩ := ColorPopup.setColorWithSignal_spec d g color p hp
    refine ⟨q.findBestfitIndex d cur color, ?_, ?_⟩
    · simp only [Call.run, ColorPopup.onColorSlidersChange, hq]
      rfl
    · exact ColorPopup.stripOk_congr d g q _
        (by rw [ColorPopup.findBestfitIndex_frame d cur color q]) h2
  | onColorHexEntryChange cur color =>
    obtain ⟨q, hq, h2, _⟩ := ColorPopup.onColorHexEntryChange_some d g cur color p hp
    exact ⟨q, hq, h2⟩
  | onSimpleColorClick =>
    have hp1 : ColorPopup.StripOk d g { p with m_colorType := none } := hp
    cases g with
    | none => exact ⟨{ p with m_colorType := none }, rfl, hp1⟩
    | some pal =>
      simp only [Call.run, ColorPopup.onSimpleColorClick]
      obtain ⟨q, hq, _, h2, _⟩ := ColorPopup.setColorWithSignal_spec d (some pal)
        (if d.findBestfit pal (d.getRed p.getColor) (d.getGreen p.getColor)
            (d.getBlue p.getColor) (d.getAlpha p.getColor) 0 ≥ 0 then
          d.fromRgb
            (d.rgba_getr (d.getEntry pal (d.findBestfit pal (d.getRed p.getColor)
              (d.getGreen p.getColor) (d.getBlue p.getColor) (d.getAlpha p.getColor) 0).toNat))
            (d.rgba_getg (d.getEntry pal (d.findBestfit pal (d.getRed p.getColor)
              (d.getGreen p.getColor) (d.getBlue p.getColor) (d.getAlpha p.getColor) 0).toNat))
            (d.rgba_getb (d.getEntry pal (d.findBestfit pal (d.getRed p.getColor)
              (d.getGreen p.getColor) (d.getBlue p.getColor) (d.getAlpha p.getColor) 0).toNat))
            (d.rgba_geta (d.getEntry pal (d.findBestfit pal (d.getRed p.getColor)
              (d.getGreen p.getColor) (d.getBlue p.getColor) (d.getAlpha p.getColor) 0).toNat))
         else p.getColor)
        { p with m_colorType := none } hp1
      exact ⟨q, hq, h2⟩
  | onColorTypeClick =>
    simp only [Call.run, ColorPopup.onColorTypeClick]
    cases hsc : p.m_simpleColors with
    | none =>
      obtain ⟨q, hq, _, h2, _⟩ := ColorPopup.setColorWithSignal_spec d g
        (if p.m_colorType = some INDEX_MODE then d.fromIndex (d.getIndex p.getColor)
         else if p.m_colorType = some RGB_MODE then
           d.fromRgb (d.getRed p.getColor) (d.getGreen p.getColor) (d.getBlue p.getColor)
             (d.getAlpha p.getColor)
         else if p.m_colorType = some HSB_MODE then
           d.fromHsv (d.getHue p.getColor) (d.getSaturation p.getColor) (d.getValue p.getColor)
             (d.getAlpha p.getColor)
         else if p.m_colorType = some GRAY_MODE then
           d.fromGray (d.getGray p.getColor) (d.getAlpha p.getColor)
         else if p.m_colorType = some MASK_MODE then d.fromMask
         else p.getColor) p hp
      exact ⟨q, hq, h2⟩
    | some sc =>
      obtain ⟨pal, hg, hlen⟩ := hp sc hsc
      subst hg
      obtain ⟨sc', hd, hlen'⟩ := SimpleColors.deselect_some (d.size pal) sc hlen
      have hp1 : ColorPopup.StripOk d (some pal) { p with m_simpleColors := some sc' } := by
        intro sc2 h2
        have e : sc' = sc2 := by simpa using h2
        subst e
        exact ⟨pal, rfl, hlen'⟩
      obtain ⟨q, hq, _, h2, _⟩ := ColorPopup.setColorWithSignal_spec d (some pal)
        (if p.m_colorType = some INDEX_MODE then d.fromIndex (d.getIndex p.getColor)
         else if p.m_colorType = some RGB_MODE then
           d.fromRgb (d.getRed p.getColor) (d.getGreen p.getColor) (d.getBlue p.getColor)
             (d.getAlpha p.getColor)
         else if p.m_colorType = some HSB_MODE then
           d.fromHsv (d.getHue p.getColor) (d.getSaturation p.getColor) (d.getValue p.getColor)
             (d.getAlpha p.getColor)
         else if p.m_colorType = some GRAY_MODE then
           d.fromGray (d.getGray p.getColor) (d.getAlpha p.getColor)
         else if p.m_colorType = some MASK_MODE then d.fromMask
         else p.getColor) { p with m_simpleColors := some sc' } hp1
      refine ⟨q, ?_, h2⟩
      simp only [hd]
      exact hq
  | onPaletteChange =>
    obtain ⟨q, hq, _, h2, _⟩ := ColorPopup.setColor_spec d g p.getColor .DoNotChangeType p hp
    exact ⟨q, hq, h2⟩
  | onItemClick i =>
    simp only [Call.run, ColorPopup.onItemClick]
    cases hsc : p.m_simpleColors with
    | none => exact ⟨p, rfl, hp⟩
    | some sc =>
      cases hi : sc.children.get? i with
      | none => exact ⟨p, by simp only [hi], hp⟩
      | some item =>
        obtain ⟨q, hq, _, h2, _⟩ := ColorPopup.setColorWithSignal_spec d g item.m_color p hp
        exact ⟨q, by simp only [hi, hq], h2⟩

/-- In every world the program can be in, every popup is consistent with the
global. -/
theorem Reachable.stripOk (d : Deps Color Palette Dbl) (w : World Color Palette)
    (hw : Reachable d w) : ∀ p ∈ w.popups, ColorPopup.StripOk d w.g_simplePal p := by
  induction hw with
  | start => intro p hp; cases hp
  | construct w canPin showSimpleColors findFirst load_palette _ ih =>
    intro p hp
    rcases List.mem_append.mp hp with h | h
    · exact ColorPopup.stripOk_after_new d canPin showSimpleColors findFirst load_palette
        w.g_simplePal p (ih p h)
    · rw [List.mem_singleton.mp h]
      exact ColorPopup.new_stripOk d canPin showSimpleColors findFirst load_palette w.g_simplePal
  | call w i c p q _ hget hrun ih =>
    intro r hr
    rcases List.mem_or_eq_of_mem_set hr with h | h
    · exact ih r h
    · obtain ⟨q', hq', hok⟩ := Call.run_some d w.g_simplePal p c (ih p (List.get?_mem hget))
      rw [hrun] at hq'
      rw [h, Option.some.inj hq']
      exact hok
  | destroy w i _ ih =>
    intro p hp
    exact ih p (List.mem_of_mem_eraseIdx hp)

namespace ColorPopup

/-- On a freshly constructed popup a first `setColor(c, ChangeType)`
returns and sets the colour type up for the type of `c` (selected item and
visible panel), for every colour `c`: on this path the code does what the
comment of the constructor says. -/
theorem first_setColor_changeType_sets_type_up (d : Deps Color Palette Dbl)
    (canPin showSimpleColors findFirst : Bool) (load_palette g : Option Palette) (c : Color) :
    ∃ q, (ColorPopup.new d canPin showSimpleColors findFirst load_palette g).2.setColor d
        (ColorPopup.new d canPin showSimpleColors findFirst load_palette g).1 c .ChangeType
          = some q ∧
      TypeSetUp (d.getType c) q := by
  have hok := new_stripOk d canPin showSimpleColors findFirst load_palette g
  obtain ⟨q, hq, _, _, _, _, _, _, _, _, h9, _⟩ := setColor_spec d _ c .ChangeType _ hok
  exact ⟨q, hq, h9 rfl⟩

/-- C4: the constructor says of the colour type that "the first setColor()
call will setup it correctly", and connects `onPaletteChange` to the palette
change signal; the code does not keep the promise on that path.  On the popup
`ColorPopup(false, false)` the call `onPaletteChange()` is the first call
`setColor(Color::fromMask(), DoNotChangeType)`, and it does not leave the
colour type set up for the mask type: it returns with no item selected and
with the RGB sliders, not the mask label, as the visible panel. -/
theorem first_setColor_doNotChangeType_not_set_up :
    ((ColorPopup.new sampleDeps false false false none none).2.onPaletteChange sampleDeps
        (ColorPopup.new sampleDeps false false false none none).1 =
      (ColorPopup.new sampleDeps false false false none none).2.setColor sampleDeps
        (ColorPopup.new sampleDeps false false false none none).1 sampleDeps.fromMask
          .DoNotChangeType) ∧
    (¬ ∃ q, (ColorPopup.new sampleDeps false false false none none).2.setColor sampleDeps
        (ColorPopup.new sampleDeps false false false none none).1 sampleDeps.fromMask
          .DoNotChangeType = some q ∧
      TypeSetUp (sampleDeps.getType sampleDeps.fromMask) q) ∧
    ((ColorPopup.new sampleDeps false false false none none).2.setColor sampleDeps
        (ColorPopup.new sampleDeps false false false none none).1 sampleDeps.fromMask
          .DoNotChangeType =
      some
        { m_color := sampleDeps.fromMask
          m_colorPalette := none
          m_simpleColors := none
          m_colorType := none
          m_hexColorEntry := [sampleDeps.fromMask]
          m_rgbSliders := { color := some sampleDeps.fromMask, visible := true }
          m_hsvSliders := { color := some sampleDeps.fromMask, visible := false }
          m_graySlider := { color := some sampleDeps.fromMask, visible := false }
          colorPaletteContainerVisible := false
          maskLabelVisible := false
          m_canPin := false
          m_disableHexUpdate := false
          ColorChange := [] }) := by
  have e : (ColorPopup.new sampleDeps false false false none none).2.setColor sampleDeps
      (ColorPopup.new sampleDeps false false false none none).1 sampleDeps.fromMask
        .DoNotChangeType =
      some
        { m_color := sampleDeps.fromMask
          m_colorPalette := none
          m_simpleColors := none
          m_colorType := none
          m_hexColorEntry := [sampleDeps.fromMask]
          m_rgbSliders := { color := some sampleDeps.fromMask, visible := true }
          m_hsvSliders := { color := some sampleDeps.fromMask, visible := false }
          m_graySlider := { color := some sampleDeps.fromMask, visible := false }
          colorPaletteContainerVisible := false
          maskLabelVisible := false
          m_canPin := false
          m_disableHexUpdate := false
          ColorChange := [] } := by
    decide
  refine ⟨rfl, ?_, e⟩
  rintro ⟨q, hq, hs⟩
  rw [e] at hq
  rw [← Option.some.inj hq] at hs
  exact absurd hs.1 (by decide)

/-- C5: for every colour `c`, on a popup consistent with the global (as
every popup of a reachable world is, `Reachable.stripOk`),
`onColorHexEntryChange(c)` returns without writing the hex entry (its state
is as before); the colour of the popup is `c`; the RGB, HSV and gray sliders
are set to `c`; the flag `m_disableHexUpdate` is clear on return, and a later
`setColor(c2, options)` writes `c2` to the hex entry. -/
theorem onColorHexEntryChange_keeps_hex_entry (d : Deps Color Palette Dbl)
    (g : Option Palette) (cur : Palette) (c : Color) (p : ColorPopup Color)
    (hp : StripOk d g p) :
    ∃ q, p.onColorHexEntryChange d g cur c = some q ∧
      q.m_hexColorEntry = p.m_hexColorEntry ∧
      q.getColor = c ∧
      q.m_rgbSliders.color = some c ∧
      q.m_hsvSliders.color = some c ∧
      q.m_graySlider.color = some c ∧
      q.m_disableHexUpdate = false ∧
      ∀ (c2 : Color) (options : SetColorOptions),
        ∃ q2, q.setColor d g c2 options = some q2 ∧
          q2.m_hexColorEntry = c2 :: q.m_hexColorEntry := by
  obtain ⟨q, hq, hok, h1, h2, h3, h4, h5, h6⟩ := onColorHexEntryChange_some d g cur c p hp
  refine ⟨q, hq, h1, h2, h3, h4, h5, h6, ?_⟩
  intro c2 options
  obtain ⟨q2, hq2, _, _, hhex, _⟩ := setColor_spec d g c2 options q hok
  refine ⟨q2, hq2, ?_⟩
  rw [hhex, h6]
  rfl

/-- C5 on the popup of `sampleWorld`, for the indexed colour 3. -/
theorem onColorHexEntryChange_keeps_hex_entry_witness :
    StripOk sampleDeps (some samplePal)
      (ColorPopup.new sampleDeps false true true (some samplePal) none).2 ∧
    ∃ q, (ColorPopup.new sampleDeps false true true (some samplePal) none).2.onColorHexEntryChange
        sampleDeps (some samplePal) samplePal sampleIndex3 = some q ∧
      q.m_hexColorEntry =
        (ColorPopup.new sampleDeps false true true (some samplePal) none).2.m_hexColorEntry ∧
      q.getColor = sampleIndex3 ∧
      q.m_rgbSliders.color = some sampleIndex3 ∧
      q.m_hsvSliders.color = some sampleIndex3 ∧
      q.m_graySlider.color = some sampleIndex3 ∧
      q.m_disableHexUpdate = false ∧
      ∀ (c2 : SampleColor) (options : SetColorOptions),
        ∃ q2, q.setColor sampleDeps (some samplePal) c2 options = some q2 ∧
          q2.m_hexColorEntry = c2 :: q.m_hexColorEntry :=
  ⟨new_stripOk sampleDeps false true true (some samplePal) none,
    onColorHexEntryChange_keeps_hex_entry sampleDeps (some samplePal) samplePal sampleIndex3
      (ColorPopup.new sampleDeps false true true (some samplePal) none).2
      (new_stripOk sampleDeps false true true (some samplePal) none)⟩

/-- C6: for every colour `c`, on a popup consistent with the global (as
every popup of a reachable world is, `Reachable.stripOk`),
`setColorWithSignal(c)` returns, `getColor()` is `c` afterwards, and the
signal `ColorChange` has been emitted exactly once more, with argument `c`
and at a moment when `getColor()` already was `c`; `setColor(c, options)`
returns with `getColor()` equal to `c` for either value of `options`, and
emits nothing. -/
theorem setColorWithSignal_stores_and_fires_once (d : Deps Color Palette Dbl)
    (g : Option Palette) (c : Color) (p : ColorPopup Color) (hp : StripOk d g p) :
    (∃ q, p.setColorWithSignal d g c = some q ∧
      q.getColor = c ∧
      q.ColorChange = p.ColorChange ++ [{ color := c, seen := c }]) ∧
    ∀ options : SetColorOptions,
      ∃ q, p.setColor d g c options = some q ∧
        q.getColor = c ∧
        q.ColorChange = p.ColorChange := by
  constructor
  · obtain ⟨q, hq, h1, _, _, _, _, _, _, h8, _⟩ := setColorWithSignal_spec d g c p hp
    exact ⟨q, hq, h1, h8⟩
  · intro options
    obtain ⟨q, hq, h1, _, _, _, _, _, _, h8, _⟩ := setColor_spec d g c options p hp
    exact ⟨q, hq, h1, h8⟩

/-- C6 on the popup of `sampleWorld`, for opaque red. -/
theorem setColorWithSignal_stores_and_fires_once_witness :
    StripOk sampleDeps (some samplePal)
      (ColorPopup.new sampleDeps false true true (some samplePal) none).2 ∧
    ((∃ q, (ColorPopup.new sampleDeps false true true (some samplePal) none).2.setColorWithSignal
        sampleDeps (some samplePal) sampleRed = some q ∧
      q.getColor = sampleRed ∧
      q.ColorChange =
        (ColorPopup.new sampleDeps false true true (some samplePal) none).2.ColorChange ++
          [{ color := sampleRed, seen := sampleRed }]) ∧
    ∀ options : SetColorOptions,
      ∃ q, (ColorPopup.new sampleDeps false true true (some samplePal) none).2.setColor
          sampleDeps (some samplePal) sampleRed options = some q ∧
        q.getColor = sampleRed ∧
        q.ColorChange =
          (ColorPopup.new sampleDeps false true true (some samplePal) none).2.ColorChange) :=
  ⟨new_stripOk sampleDeps false true true (some samplePal) none,
    setColorWithSignal_stores_and_fires_once sampleDeps (some samplePal) sampleRed
      (ColorPopup.new sampleDeps false true true (some samplePal) none).2
      (new_stripOk sampleDeps false true true (some samplePal) none)⟩

end ColorPopup

/-- C7: in every world the program can be in, a constructor call with
`showSimpleColors = false` leaves `g_simplePal` as it is and does not depend
on the palette file; a call with `showSimpleColors = true` sets a null
`g_simplePal` to what the lookup and `load_palette` give, and leaves a loaded
`g_simplePal` as it is, without depending on the palette file; after the call
the new popup has a strip only if `g_simplePal` is non-null, and `setColor` on
it returns; and every popup alive has a strip only if `g_simplePal` is
non-null, so that `setColor` on it returns: it never dereferences a null
`g_simplePal`. -/
theorem Reachable.g_simplePal_loaded_lazily (d : Deps Color Palette Dbl)
    (w : World Color Palette) (hw : Reachable d w)
    (canPin showSimpleColors findFirst : Bool) (load_palette : Option Palette) :
    (ColorPopup.new d canPin false findFirst load_palette w.g_simplePal).1 = w.g_simplePal ∧
    (∀ (f : Bool) (l : Option Palette),
      ColorPopup.new d canPin false f l w.g_simplePal =
        ColorPopup.new d canPin false findFirst load_palette w.g_simplePal) ∧
    (w.g_simplePal = none →
      (ColorPopup.new d canPin true findFirst load_palette w.g_simplePal).1 =
        if findFirst then load_palette else none) ∧
    (∀ pal, w.g_simplePal = some pal →
      (ColorPopup.new d canPin true findFirst load_palette w.g_simplePal).1 = some pal ∧
      ∀ (f : Bool) (l : Option Palette),
        ColorPopup.new d canPin true f l w.g_simplePal =
          ColorPopup.new d canPin true findFirst load_palette w.g_simplePal) ∧
    ((ColorPopup.new d canPin showSimpleColors findFirst load_palette
          w.g_simplePal).2.m_simpleColors ≠ none →
      (ColorPopup.new d canPin showSimpleColors findFirst load_palette w.g_simplePal).1
        ≠ none) ∧
    (∀ (c : Color) (options : SetColorOptions),
      ∃ q, (ColorPopup.new d canPin showSimpleColors findFirst load_palette
          w.g_simplePal).2.setColor d
        (ColorPopup.new d canPin showSimpleColors findFirst load_palette w.g_simplePal).1
        c options = some q) ∧
    (∀ p ∈ w.popups,
      (p.m_simpleColors ≠ none → w.g_simplePal ≠ none) ∧
      ∀ (c : Color) (options : SetColorOptions),
        ∃ q, p.setColor d w.g_simplePal c options = some q) := by
  have strip_global : ∀ (g : Option Palette) (p : ColorPopup Color),
      ColorPopup.StripOk d g p → p.m_simpleColors ≠ none → g ≠ none := by
    intro g p hp hne
    cases hsc : p.m_simpleColors with
    | none => exact absurd hsc hne
    | some sc =>
      obtain ⟨pal, hg, _⟩ := hp sc hsc
      rw [hg]
      exact Option.some_ne_none pal
  have hnew := ColorPopup.new_stripOk d canPin showSimpleColors findFirst load_palette
    w.g_simplePal
  refine ⟨rfl, fun _ _ => rfl, ?_, ?_, strip_global _ _ hnew, ?_, ?_⟩
  · intro hg
    rw [hg]
    rfl
  · intro pal hg
    rw [hg]
    exact ⟨rfl, fun _ _ => rfl⟩
  · intro c options
    obtain ⟨q, hq, _⟩ := ColorPopup.setColor_spec d _ c options _ hnew
    exact ⟨q, hq⟩
  · intro p hp
    have hok := Reachable.stripOk d w hw p hp
    refine ⟨strip_global _ _ hok, ?_⟩
    intro c options
    obtain ⟨q, hq, _⟩ := ColorPopup.setColor_spec d _ c options p hok
    exact ⟨q, hq⟩

/-- C7 at `sampleWorld`, the world after the first construction, for the
popups alive in it. -/
theorem Reachable.g_simplePal_loaded_lazily_witness :
    Reachable sampleDeps sampleWorld ∧
    ∀ p ∈ sampleWorld.popups,
      (p.m_simpleColors ≠ none → sampleWorld.g_simplePal ≠ none) ∧
      ∀ (c : SampleColor) (options : SetColorOptions),
        ∃ q, p.setColor sampleDeps sampleWorld.g_simplePal c options = some q :=
  ⟨Reachable.construct { g_simplePal := none, popups := [] } false true true (some samplePal)
      Reachable.start,
    (Reachable.g_simplePal_loaded_lazily sampleDeps sampleWorld
      (Reachable.construct { g_simplePal := none, popups := [] } false true true (some samplePal)
        Reachable.start) false true true (some samplePal)).2.2.2.2.2.2⟩

end app
